import Mathlib

/-!
Shallow embedding of the check-execution and reconciliation engine of the
`netcam-aioexos` package, together with theorems settling the frozen claims
about its specification.

The per-category check executors (interfaces, ip addresses, vlans,
transceivers) and the device-under-test API cache are translated from the
package sources.  The generic outcome-measurement step (`CheckResult.measure`
of the `netcad` collaborator library) is not part of this repository's
sources; it is modelled from the specification, section 4.4.
-/

namespace NetcamAioexos

/-- The graded outcome status.  Severity order for reporting:
`PASS < INFO < WARN < SKIP < FAIL`; `MISSING` is the distinguished status
applied when no measurement exists. -/
inductive CheckStatus where
  | pass
  | info
  | warn
  | skip
  | fail
  | missing
deriving DecidableEq

/-- Severity rank of a status, used to pick the most severe field status. -/
def CheckStatus.sev : CheckStatus → Nat
  | .pass => 0
  | .info => 1
  | .warn => 2
  | .skip => 3
  | .fail => 4
  | .missing => 5

/-- A log entry attached to an outcome (the `result.logs.log(...)` calls in
the sources).  `ports` carries an identifier-set payload for the exclusive
membership logs; it is empty for the other entries. -/
structure LogEntry where
  status : CheckStatus
  field : String
  note : String := ""
  ports : Finset String := ∅
deriving DecidableEq

/-- The graded result of reconciling one expectation: the overall status, the
per-field statuses in field-declaration order, and the attached log entries. -/
structure Outcome where
  status : CheckStatus
  fieldLogs : List (String × CheckStatus)
  logs : List LogEntry
deriving DecidableEq

/-- Association-list lookup, the embedding of Python `dict.get`. -/
def lookupA {α : Type} : List (String × α) → String → Option α
  | [], _ => none
  | (k0, v) :: rest, k => if k0 = k then some v else lookupA rest k

/-- Most severe status in a list; ties broken by order (the first most-severe
entry wins), `PASS` when the list is empty. -/
def maxStatus (l : List CheckStatus) : CheckStatus :=
  l.foldl (fun acc s => if acc.sev < s.sev then s else acc) .pass

/-- Modelled from the spec: step 2 of the reconcile algorithm (spec section
4.4).  For each comparable field in its fixed order: equality contributes
`PASS`; on inequality the per-field override is consulted and may return a
replacement status together with log entries, else the default `FAIL`
applies.  This models the field loop of `CheckResult.measure` of the external
`netcad` library, which is not part of this repository's sources. -/
def measureFields (fields : List (String × Bool))
    (onMismatch : String → Option CheckStatus × List LogEntry) :
    List (String × CheckStatus) × List LogEntry :=
  (fields.map (fun fb =>
      (fb.1,
       if fb.2 then CheckStatus.pass
       else (onMismatch fb.1).1.getD CheckStatus.fail)),
   ((fields.filter (fun fb => !fb.2)).map
      (fun fb => (onMismatch fb.1).2)).flatten)

/-- Modelled from the spec: the reconcile step of `CheckResult.measure` (spec
section 4.4), which is not part of this repository's sources.  An absent
measurement yields `MISSING` immediately with no field comparisons;  a
pre-set status (the reserved-entity policy) is kept, skipping field
comparison entirely; otherwise the per-field statuses are computed and the
overall status is the most severe among them.  `extraLogs` are the entries
logged onto the result before `measure` is called. -/
def measure (preset : Option CheckStatus) (hasMeasurement : Bool)
    (fields : List (String × Bool))
    (onMismatch : String → Option CheckStatus × List LogEntry)
    (extraLogs : List LogEntry) : Outcome :=
  if hasMeasurement = false then
    { status := .missing, fieldLogs := [], logs := extraLogs }
  else
    match preset with
    | some st => { status := st, fieldLogs := [], logs := extraLogs }
    | none =>
      let r := measureFields fields onMismatch
      { status := maxStatus (r.1.map (fun p => p.2))
        fieldLogs := r.1
        logs := extraLogs ++ r.2 }

/-! ## Interfaces check (`topology/exos_check_interfaces.py`) -/

/-- The per-interface check flags (`check.check_params.interface_flags`). -/
structure IfFlags where
  is_reserved : Bool := false
  is_forced_unused : Bool := false
deriving DecidableEq

/-- The comparable field set shared by the interface expectation and the
interface measurement (`InterfaceCheckMeasurement`): `used`, `oper_up`,
`desc`, `speed`. -/
structure InterfaceFields where
  used : Bool
  oper_up : Bool
  desc : String
  speed : Nat
deriving DecidableEq

/-- Field comparisons of the interface check, in declaration order. -/
def ifaceFields (e m : InterfaceFields) : List (String × Bool) :=
  [("used", e.used == m.used),
   ("oper_up", e.oper_up == m.oper_up),
   ("desc", e.desc == m.desc),
   ("speed", e.speed == m.speed)]

/-- The `on_mismatch` closure of `_check_one_interface`: a description
mismatch is a `WARN` unless the design forces the port unused, in which case
it is a `FAIL`; a speed mismatch while the measured interface is
operationally down is a `SKIP`; anything else defers to the default. -/
def ifaceOnMismatch (isForcedUnused : Bool) (msrd : InterfaceFields)
    (f : String) : Option CheckStatus × List LogEntry :=
  if f = "desc" then
    (some (if isForcedUnused then CheckStatus.fail else CheckStatus.warn), [])
  else if f = "speed" ∧ msrd.oper_up = false then
    (some CheckStatus.skip, [])
  else
    (none, [])

/-- Embedding of `_check_one_interface`: an absent measurement short-circuits
to a `MISSING` outcome; a reserved interface yields a single `INFO` outcome
with the reserved log and no field comparison; otherwise the expected `used`
value is forced to `false` when the forced-unused flag is set and the fields
are measured with `ifaceOnMismatch`. -/
def checkOneInterface (flags : IfFlags) (expd : InterfaceFields)
    (ifMsrd : Option InterfaceFields) : List Outcome :=
  match ifMsrd with
  | none => [measure none false [] (fun _ => (none, [])) []]
  | some m =>
    if flags.is_reserved then
      [measure (some .info) true [] (fun _ => (none, []))
        [{ status := .info, field := "reserved" }]]
    else
      let expd' :=
        if flags.is_forced_unused then { expd with used := false } else expd
      [measure none true (ifaceFields expd' m)
        (ifaceOnMismatch flags.is_forced_unused m) []]

/-! ## Transceivers check (`topology/exos_check_transceivers.py`) -/

/-- One record of the device transceiver inventory mapping
(`dev_xcvr_ifstatus`), with the fields the executor reads.  An absent part
number is the empty string (Python falsy). -/
structure XcvrRec where
  partNumber : String := ""
  mediaType : String := ""
  slNumber : String := ""
deriving DecidableEq

/-- The expected transceiver fields (`model`, `type`). -/
structure XcvrExpected where
  model : String
  xtype : String
deriving DecidableEq

/-- The `on_mismatch` closure of the transceivers `_check_one_interface`:
model and type mismatches are re-examined with the domain matchers of the
collaborator library (passed in as `mm` and `tm`), yielding `PASS` when the
matcher accepts and `FAIL` otherwise. -/
def xcvrOnMismatch (mm tm : String → String → Bool)
    (eModel mModel eType mType : String) (f : String) :
    Option CheckStatus × List LogEntry :=
  if f = "model" then
    (some (if mm eModel mModel then CheckStatus.pass else CheckStatus.fail), [])
  else if f = "type" then
    (some (if tm eType mType then CheckStatus.pass else CheckStatus.fail), [])
  else
    (some CheckStatus.fail, [])

/-- Embedding of one loop step of `exos_check_transceivers` for one check:
the inventory mapping is indexed directly (`dev_xcvr_ifstatus[if_name]`), so
an entity absent from the mapping raises a `KeyError` (modelled as
`Except.error`) instead of producing an outcome; a reserved interface
profile yields a single `INFO` outcome; a record without a part number
yields a `MISSING` outcome; otherwise the model and type fields are
measured. -/
def xcvrProcessCheck (devXcvr : List (String × XcvrRec))
    (isReservedProfile : Bool) (mm tm : String → String → Bool)
    (expd : XcvrExpected) (ifName : String) : Except String (List Outcome) :=
  match lookupA devXcvr ifName with
  | none => Except.error "KeyError"
  | some r =>
    if isReservedProfile then
      Except.ok [measure (some .info) true [] (fun _ => (none, []))
        [{ status := .info, field := "reserved" }]]
    else if r.partNumber = "" then
      Except.ok [measure none false [] (fun _ => (none, [])) []]
    else
      let mModel := r.partNumber
      let mType := (r.mediaType.splitOn " ").headD ""
      Except.ok [measure none true
        [("model", expd.model == mModel), ("type", expd.xtype == mType)]
        (xcvrOnMismatch mm tm expd.model mModel expd.xtype mType) []]

/-! ## IP address check (`topology/exos_check_ipaddrs.py`) -/

/-- The design data consulted for one interface
(`dut.device_info["interfaces"][name]`): the enabled flag and whether
`"is_reserved"` is present among the profile flags. -/
structure IpIfDesign where
  enabled : Bool
  has_is_reserved : Bool
deriving DecidableEq

/-- The raw `ifIpConfig` record fields the executor reads.  `prefixLen` is
optional: an absent key raises `KeyError` in the source, which turns the
result into a `MISSING` outcome.  The flags string is modelled as its
character list; the source tests `"U" in msrd_data["flags"]`. -/
structure IpRec where
  ipAddress : String
  prefixLen : Option Nat
  flags : List Char
deriving DecidableEq

/-- The expected IP interface fields (`if_ipaddr`, `oper_up`). -/
structure IpExpected where
  if_ipaddr : String
  oper_up : Bool
deriving DecidableEq

/-- Field comparisons of the IP interface check, in declaration order. -/
def ipFields (e : IpExpected) (msrdIp : String) (msrdUp : Bool) :
    List (String × Bool) :=
  [("if_ipaddr", e.if_ipaddr == msrdIp), ("oper_up", e.oper_up == msrdUp)]

/-- The `on_mismatch` closure of `_check_vlan_assoc_interface`: `PASS` for
the `oper_up` field, `FAIL` for every other field. -/
def ipAssocOnMismatch (f : String) : Option CheckStatus × List LogEntry :=
  (some (if f = "oper_up" then CheckStatus.pass else CheckStatus.fail), [])

/-- Embedding of `_check_vlan_assoc_interface`: the VLAN's port list is read
(`vlanPorts`, port name with its link state); the disregarded set collects
the ports that are disabled in the design or carry the `is_reserved` profile
flag; only when every port is disregarded an outcome is appended, carrying
an `INFO` log listing the ports and measured with `ipAssocOnMismatch`
(otherwise no outcome is appended at all). -/
def checkVlanAssocIface (vlanPorts : List (String × Bool))
    (dutIfs : String → IpIfDesign) (preset : Option CheckStatus)
    (fields : List (String × Bool)) : List Outcome :=
  let names := vlanPorts.map (fun p => p.1)
  let disrd := names.filter
    (fun p => (dutIfs p).enabled = false ∨ (dutIfs p).has_is_reserved = true)
  if disrd.toFinset = names.toFinset then
    [measure preset true fields (fun f => ipAssocOnMismatch f)
      [{ status := .info, field := "oper_up",
         note := "interfaces are either disabled or in reserved state",
         ports := names.toFinset }]]
  else
    []

/-- Embedding of the ipaddrs `_check_one_interface`: a record without a
prefix length yields a `MISSING` outcome; an expected address equal to the
literal `"is_reserved"` sets the result status to `INFO` and appends a
measured outcome — without returning, so processing continues; the measured
`oper_up` is whether `"U"` occurs in the record flags; when the design
enables the interface, the measured state is down and the record is
VLAN-bound, `_check_vlan_assoc_interface` decides the remaining outcomes,
otherwise a default measure outcome is appended. -/
def checkOneIpInterface (ifaceEnabled : Bool) (isVlan : Bool)
    (vlanPorts : List (String × Bool)) (dutIfs : String → IpIfDesign)
    (expd : IpExpected) (msrdData : IpRec) : List Outcome :=
  match msrdData.prefixLen with
  | none => [measure none false [] (fun _ => (none, [])) []]
  | some plen =>
    let msrdIp := msrdData.ipAddress ++ "/" ++ toString plen
    let preset : Option CheckStatus :=
      if expd.if_ipaddr = "is_reserved" then some .info else none
    let head : List Outcome :=
      if expd.if_ipaddr = "is_reserved" then
        [measure (some .info) true [] (fun _ => (none, [])) []]
      else []
    let msrdUp := msrdData.flags.contains 'U'
    if ifaceEnabled = true ∧ msrdUp = false ∧ isVlan = true then
      head ++ checkVlanAssocIface vlanPorts dutIfs preset
        (ipFields expd msrdIp msrdUp)
    else
      head ++ [measure preset true (ipFields expd msrdIp msrdUp)
        (fun _ => (none, [])) []]

/-! ## VLAN check (`vlans/exos_check_vlans.py`) -/

/-- The profile flags consulted in `dut.device_info["interfaces"]`. -/
structure ProfileFlags where
  is_virtual : Bool := false
  is_lag : Bool := false
deriving DecidableEq

/-- The comparable VLAN field set (`name`, `oper_up`, `interfaces`); the
VLAN id is the check id and is not one of the compared fields. -/
structure VlanFields where
  name : String
  oper_up : Bool
  interfaces : List String
deriving DecidableEq

/-- One record of the per-VLAN status map (`vlan_data_map` entry): the VLAN
name and the active-port count whose truthiness becomes the measured
`oper_up`. -/
structure VlanStatus where
  name : String
  active_ports : Nat
deriving DecidableEq

/-- The interface names flagged virtual in the design
(`virt_if_names` list comprehension). -/
def virtIfNames (deviceIfs : List (String × ProfileFlags)) : List String :=
  (deviceIfs.filter (fun x => x.2.is_virtual)).map (fun x => x.1)

/-- The interface names flagged as LAGs in the design
(`lag_if_names` list comprehension). -/
def lagIfNames (deviceIfs : List (String × ProfileFlags)) : List String :=
  (deviceIfs.filter (fun x => x.2.is_lag)).map (fun x => x.1)

/-- Embedding of the expected-interface-set adjustment of `_check_one_vlan`:
discard the virtual (SVI) interface names when any exist; when LAG names
exist, remove them, then walk every design LAG member in order and, only
when that member is a load-share master in `ls_port_map`, remove the
member's load-share group from the set and add the member back under its
own name.  A member that is not a load-share master is not added. -/
def adjustExpdIfs (deviceIfs : List (String × ProfileFlags))
    (lagMembers : String → List String)
    (lsPortMap : List (String × Finset String))
    (expdIfs : Finset String) : Finset String :=
  let e1 :=
    if virtIfNames deviceIfs ≠ [] then
      expdIfs \ (virtIfNames deviceIfs).toFinset
    else expdIfs
  let lags := lagIfNames deviceIfs
  if lags = [] then e1
  else
    let e2 := e1 \ lags.toFinset
    ((lags.map lagMembers).flatten).foldl
      (fun acc m =>
        match lookupA lsPortMap m with
        | some grp => insert m (acc \ grp)
        | none => acc)
      e2

/-- The missing set of the exclusive membership check:
`expd_ifs_set - msrd_ifs_set`. -/
def missingInterfaces (expdSet msrdSet : Finset String) : Finset String :=
  expdSet \ msrdSet

/-- The extra set of the exclusive membership check:
`msrd_ifs_set - expd_ifs_set`. -/
def extraInterfaces (expdSet msrdSet : Finset String) : Finset String :=
  msrdSet \ expdSet

/-- The two exclusive-mode membership logs of `_check_one_vlan`: a `FAIL`
entry for the missing set when it is non-empty and, independently, a `FAIL`
entry for the extra set when it is non-empty. -/
def exclusiveIfLogs (exclusive : Bool) (expdSet msrdSet : Finset String) :
    List LogEntry :=
  if exclusive then
    (if missingInterfaces expdSet msrdSet ≠ ∅ then
      [{ status := .fail, field := "interfaces", note := "missing",
         ports := missingInterfaces expdSet msrdSet }]
     else []) ++
    (if extraInterfaces expdSet msrdSet ≠ ∅ then
      [{ status := .fail, field := "interfaces", note := "extra",
         ports := extraInterfaces expdSet msrdSet }]
     else [])
  else []

/-- The `on_mismatch` closure of `_check_one_vlan`: a name mismatch passes
silently when the expected name is empty, and otherwise logs a `WARN` entry
but still returns `PASS`; an interfaces mismatch passes when the measured
set equals the adjusted expected set (exclusive mode) or contains it
(non-exclusive mode), and otherwise defers to the default. -/
def vlanOnMismatch (exclusive : Bool) (expdName : String)
    (expdSet msrdSet : Finset String) (f : String) :
    Option CheckStatus × List LogEntry :=
  if f = "name" then
    if expdName = "" then (some .pass, [])
    else (some .pass, [{ status := .warn, field := "name" }])
  else if f = "interfaces" then
    if exclusive then
      if msrdSet = expdSet then (some .pass, []) else (none, [])
    else
      if msrdSet ∩ expdSet = expdSet then (some .pass, []) else (none, [])
  else (none, [])

/-- Field comparisons of the VLAN check, in declaration order.  The default
interfaces comparison is plain list equality, which is why the override
re-compares the sets. -/
def vlanFieldsCmp (e m : VlanFields) : List (String × Bool) :=
  [("name", e.name == m.name),
   ("oper_up", e.oper_up == m.oper_up),
   ("interfaces", e.interfaces == m.interfaces)]

/-- Embedding of `_check_one_vlan` (measurement present): the measured name
and `oper_up` come from the VLAN status record, the measured interfaces are
the ports of `show vlan <name>`; the expected interface set is adjusted for
SVIs and LAGs, exclusive-mode missing/extra logs are emitted, and the
fields are measured with `vlanOnMismatch`. -/
def checkOneVlan (exclusive : Bool)
    (deviceIfs : List (String × ProfileFlags))
    (lagMembers : String → List String)
    (lsPortMap : List (String × Finset String))
    (expd : VlanFields) (vstat : VlanStatus) (ports : List String) :
    Outcome :=
  let msrd : VlanFields :=
    { name := vstat.name
      oper_up := vstat.active_ports != 0
      interfaces := ports }
  let msrdSet := ports.toFinset
  let expdSet :=
    adjustExpdIfs deviceIfs lagMembers lsPortMap expd.interfaces.toFinset
  measure none true (vlanFieldsCmp expd msrd)
    (vlanOnMismatch exclusive expd.name expdSet msrdSet)
    (exclusiveIfLogs exclusive expdSet msrdSet)

/-! ## Device-under-test API cache (`exos_dut.py`) -/

/-- The mutable state of `EXOSDeviceUnderTest` relevant to the cache: the
`_api_cache` mapping and, as verification instrumentation, a per-key count
of how many times the underlying device query was executed.  Responses are
modelled as lists of records; the empty list is the Python-falsy response. -/
structure DutState where
  cache : List (String × List Nat)
  fetchCount : List (String × Nat)
deriving DecidableEq

/-- Number of underlying device queries executed so far for a key. -/
def countOf (s : DutState) (k : String) : Nat :=
  (lookupA s.fetchCount k).getD 0

/-- Increment the per-key fetch counter. -/
def bump : List (String × Nat) → String → List (String × Nat)
  | [], k => [(k, 1)]
  | (k0, n) :: rest, k =>
    if k0 = k then (k0, n + 1) :: rest else (k0, n) :: bump rest k

/-- Store a response under a key (`self._api_cache[key] = has_data`). -/
def setCache : List (String × List Nat) → String → List Nat →
    List (String × List Nat)
  | [], k, v => [(k, v)]
  | (k0, v0) :: rest, k, v =>
    if k0 = k then (k0, v) :: rest else (k0, v0) :: setCache rest k v

/-- Embedding of `api_cache_get`.  The whole body runs under the cache lock,
so concurrent calls are serialized and one call is an atomic state
transition.  The source guards the fetch with `if not self._api_cache.get(key)`
— a truthiness test — so the fetch executes when the key is absent *or* when
the cached response is empty; the fetched response is stored and returned. -/
def api_cache_get (device : String → List Nat) (s : DutState)
    (key command : String) : List Nat × DutState :=
  match lookupA s.cache key with
  | some v =>
    if v.isEmpty then
      let r := device command
      (r, { cache := setCache s.cache key r, fetchCount := bump s.fetchCount key })
    else (v, s)
  | none =>
    let r := device command
    (r, { cache := setCache s.cache key r, fetchCount := bump s.fetchCount key })

/-- A finished sequence of `api_cache_get` calls (key, command pairs),
serialized by the cache lock, starting from a given state. -/
def runCalls (device : String → List Nat) (calls : List (String × String))
    (s : DutState) : DutState :=
  calls.foldl (fun st c => (api_cache_get device st c.1 c.2).2) s

/-! ## Cache lemmas -/

theorem lookupA_setCache_self (l : List (String × List Nat)) (k : String)
    (v : List Nat) : lookupA (setCache l k v) k = some v := by
  induction l with
  | nil => simp [setCache, lookupA]
  | cons hd tl ih =>
    by_cases h : hd.1 = k
    · simp [setCache, lookupA, h]
    · simp [setCache, lookupA, h, ih]

theorem lookupA_setCache_ne (l : List (String × List Nat)) (k k' : String)
    (v : List Nat) (h : k' ≠ k) :
    lookupA (setCache l k v) k' = lookupA l k' := by
  induction l with
  | nil => simp [setCache, lookupA, Ne.symm h]
  | cons hd tl ih =>
    by_cases h0 : hd.1 = k
    · subst h0
      simp [setCache, lookupA, Ne.symm h]
    · simp only [setCache, if_neg h0, lookupA]
      by_cases h1 : hd.1 = k'
      · simp [h1]
      · simp [h1, ih]

theorem lookupA_bump_self (l : List (String × Nat)) (k : String) :
    lookupA (bump l k) k = some ((lookupA l k).getD 0 + 1) := by
  induction l with
  | nil => simp [bump, lookupA]
  | cons hd tl ih =>
    by_cases h : hd.1 = k
    · simp [bump, lookupA, h]
    · simp [bump, lookupA, h, ih]

theorem lookupA_bump_ne (l : List (String × Nat)) (k k' : String)
    (h : k' ≠ k) : lookupA (bump l k) k' = lookupA l k' := by
  induction l with
  | nil => simp [bump, lookupA, Ne.symm h]
  | cons hd tl ih =>
    by_cases h0 : hd.1 = k
    · subst h0
      simp [bump, lookupA, Ne.symm h]
    · simp only [bump, if_neg h0, lookupA]
      by_cases h1 : hd.1 = k'
      · simp [h1]
      · simp [h1, ih]

theorem api_cache_get_hit (device : String → List Nat) (s : DutState)
    (key command : String) (v : List Nat)
    (hl : lookupA s.cache key = some v) (hv : v ≠ []) :
    api_cache_get device s key command = (v, s) := by
  have hef : v.isEmpty = false := by
    cases v
    · exact absurd rfl hv
    · rfl
  unfold api_cache_get
  rw [hl]
  simp [hef]

theorem api_cache_get_fetch (device : String → List Nat) (s : DutState)
    (key command : String)
    (h : lookupA s.cache key = none ∨ lookupA s.cache key = some []) :
    api_cache_get device s key command =
      (device command,
       { cache := setCache s.cache key (device command)
         fetchCount := bump s.fetchCount key }) := by
  unfold api_cache_get
  rcases h with h | h
  · rw [h]
  · rw [h]
    rfl

/-- Invariant tying the fetch count to the cache contents: a key has either
never been fetched, or it has been fetched exactly once and the cache holds
a non-empty (truthy) response for it. -/
def cacheInv (s : DutState) : Prop :=
  ∀ k, countOf s k = 0 ∨
    (countOf s k = 1 ∧ ∃ v, lookupA s.cache k = some v ∧ v ≠ [])

theorem cacheInv_step (device : String → List Nat) (s : DutState)
    (key command : String) (hd : device command ≠ [])
    (hs : cacheInv s) : cacheInv (api_cache_get device s key command).2 := by
  by_cases hfalsy : lookupA s.cache key = none ∨ lookupA s.cache key = some []
  · rw [api_cache_get_fetch device s key command hfalsy]
    intro k
    by_cases hk : k = key
    · subst hk
      right
      have hcnt0 : countOf s k = 0 := by
        rcases hs k with h0 | ⟨_, w, hw, hwne⟩
        · exact h0
        · rcases hfalsy with h | h
          · rw [h] at hw
            cases hw
          · rw [h] at hw
            cases hw
            exact absurd rfl hwne
      constructor
      · simp only [countOf, lookupA_bump_self, Option.getD_some]
        simp only [countOf] at hcnt0
        simp [hcnt0]
      · exact ⟨device command, lookupA_setCache_self _ _ _, hd⟩
    · rcases hs k with h0 | ⟨hcnt, w, hw, hwne⟩
      · left
        simpa [countOf, lookupA_bump_ne _ _ _ hk] using h0
      · right
        refine ⟨by simpa [countOf, lookupA_bump_ne _ _ _ hk] using hcnt,
          w, ?_, hwne⟩
        rw [lookupA_setCache_ne _ _ _ _ hk]
        exact hw
  · have hex : ∃ v, lookupA s.cache key = some v ∧ v ≠ [] := by
      cases hx : lookupA s.cache key with
      | none => exact absurd (Or.inl hx) hfalsy
      | some v =>
        refine ⟨v, rfl, ?_⟩
        intro hve
        subst hve
        exact hfalsy (Or.inr hx)
    obtain ⟨v, hv, hvne⟩ := hex
    rw [api_cache_get_hit device s key command v hv hvne]
    exact hs

theorem runCalls_inv (device : String → List Nat)
    (calls : List (String × String))
    (h : ∀ c ∈ calls, device c.2 ≠ []) (s : DutState) (hs : cacheInv s) :
    cacheInv (runCalls device calls s) := by
  induction calls generalizing s with
  | nil => exact hs
  | cons c cs ih =>
    have hstep := cacheInv_step device s c.1 c.2 (h c (by simp)) hs
    have htl : ∀ c' ∈ cs, device c'.2 ≠ [] := fun c' hc' => h c' (by simp [hc'])
    simpa [runCalls] using ih htl _ hstep

/-- C1 [corrected]: provided every response fetched during the run is truthy
(non-empty), the underlying device query for a key executes at most once per
run across any serialized sequence of `api_cache_get` calls, and any call
finding a truthy cached value for its key returns that cached value without
changing the state.  (The unconditional claim fails: a falsy cached response
is re-fetched on every call, see the counterexample.) -/
theorem exos_c1_api_cache_at_most_once (device : String → List Nat)
    (calls : List (String × String))
    (h : ∀ c ∈ calls, device c.2 ≠ []) (k : String) :
    countOf (runCalls device calls { cache := [], fetchCount := [] }) k ≤ 1 ∧
    ∀ (s : DutState) (v : List Nat) (c : String),
      lookupA s.cache k = some v → v ≠ [] →
      api_cache_get device s k c = (v, s) := by
  constructor
  · have hinv : cacheInv (runCalls device calls
        { cache := [], fetchCount := [] }) := by
      apply runCalls_inv device calls h
      intro k0
      left
      simp [countOf, lookupA]
    rcases hinv k with h0 | ⟨h1, _⟩
    · simp [h0]
    · simp [h1]
  · intro s v c hl hv
    unfold api_cache_get
    rw [hl]
    have : v.isEmpty = false := by
      cases v with
      | nil => exact absurd rfl hv
      | cons a l => rfl
    simp [this]

/-- C1 witness: a concrete two-call run with a truthy device response, where
the query for the key executes at most once. -/
theorem exos_c1_api_cache_at_most_once_witness :
    (∀ c ∈ [("switchports", "show ports"), ("switchports", "show ports")],
      (fun _ : String => [7]) c.2 ≠ ([] : List Nat)) ∧
    countOf (runCalls (fun _ : String => [7])
      [("switchports", "show ports"), ("switchports", "show ports")]
      { cache := [], fetchCount := [] }) "switchports" ≤ 1 :=
  ⟨by decide,
   (exos_c1_api_cache_at_most_once (fun _ : String => [7])
      [("switchports", "show ports"), ("switchports", "show ports")]
      (by decide) "switchports").1⟩

/-- C1 counterexample: when the device response for a key is falsy (the
empty list), two sequential `api_cache_get` calls for that key execute the
underlying query twice — refuting the claim that the query executes at most
once per run regardless of repeated calls. -/
theorem exos_c1_counterexample :
    ¬ (countOf (runCalls (fun _ : String => [])
      [("switchports", "show ports"), ("switchports", "show ports")]
      { cache := [], fetchCount := [] }) "switchports" ≤ 1) := by
  decide

/-- C2 [corrected/amended]: in the interfaces executor, an entity with no
measurement in the device-state mapping yields exactly one outcome with
status `MISSING`, no per-field statuses and no logs (no field comparisons);
in the transceivers executor the `MISSING` outcome arises when the entity's
inventory record lacks a part number — while an entity absent from the
inventory mapping altogether raises an error instead (see the
counterexample). -/
theorem exos_c2_missing_yields_missing (flags : IfFlags)
    (expd : InterfaceFields) (devXcvr : List (String × XcvrRec))
    (mm tm : String → String → Bool) (xexpd : XcvrExpected) (ifName : String)
    (r : XcvrRec) (hx : lookupA devXcvr ifName = some r)
    (hpn : r.partNumber = "") :
    checkOneInterface flags expd none =
      [{ status := .missing, fieldLogs := [], logs := [] }] ∧
    xcvrProcessCheck devXcvr false mm tm xexpd ifName =
      Except.ok [{ status := .missing, fieldLogs := [], logs := [] }] := by
  constructor
  · rfl
  · unfold xcvrProcessCheck
    rw [hx]
    simp [hpn, measure]

/-- C2 witness: concrete instances of both missing-measurement paths. -/
theorem exos_c2_missing_yields_missing_witness :
    (lookupA [("49", ({ partNumber := "" } : XcvrRec))] "49" =
      some ({ partNumber := "" } : XcvrRec)) ∧
    ({ partNumber := "" } : XcvrRec).partNumber = "" ∧
    checkOneInterface {} { used := true, oper_up := true, desc := "", speed := 0 }
      none = [{ status := .missing, fieldLogs := [], logs := [] }] ∧
    xcvrProcessCheck [("49", ({ partNumber := "" } : XcvrRec))] false
      (fun _ _ => true) (fun _ _ => true) { model := "X", xtype := "T" } "49" =
      Except.ok [{ status := .missing, fieldLogs := [], logs := [] }] :=
  ⟨by decide, rfl,
   (exos_c2_missing_yields_missing {}
      { used := true, oper_up := true, desc := "", speed := 0 }
      [("49", ({ partNumber := "" } : XcvrRec))] (fun _ _ => true)
      (fun _ _ => true) { model := "X", xtype := "T" } "49"
      ({ partNumber := "" } : XcvrRec) (by decide) rfl).1,
   (exos_c2_missing_yields_missing {}
      { used := true, oper_up := true, desc := "", speed := 0 }
      [("49", ({ partNumber := "" } : XcvrRec))] (fun _ _ => true)
      (fun _ _ => true) { model := "X", xtype := "T" } "49"
      ({ partNumber := "" } : XcvrRec) (by decide) rfl).2⟩

/-- C2 counterexample: in the transceivers executor an entity absent from
the device-state mapping does not produce a `MISSING` outcome; the direct
mapping index raises a `KeyError` that aborts the whole category. -/
theorem exos_c2_counterexample :
    (xcvrProcessCheck [] false (fun _ _ => true) (fun _ _ => true)
      { model := "X", xtype := "T" } "49").isOk = false ∧
    xcvrProcessCheck [] false (fun _ _ => true) (fun _ _ => true)
      { model := "X", xtype := "T" } "49" = Except.error "KeyError" := by
  constructor
  · rfl
  · rfl

/-- C3 [code bug, evaluation at the failing input]: in the ipaddrs executor
a reserved expectation (expected address literal `"is_reserved"`) appends
its `INFO` outcome and then — lacking the early return present in the
interfaces executor — continues and appends a second outcome, so the entity
gets two outcomes instead of exactly one.  Input: enabled VLAN interface,
record `10.1.1.1/24` with flags `UR` (measured up). -/
theorem exos_c3_reserved_ipaddr_two_outcomes :
    checkOneIpInterface true true []
      (fun _ => { enabled := true, has_is_reserved := false })
      { if_ipaddr := "is_reserved", oper_up := true }
      { ipAddress := "10.1.1.1", prefixLen := some 24, flags := ['U', 'R'] } =
      [{ status := .info, fieldLogs := [], logs := [] },
       { status := .info, fieldLogs := [], logs := [] }] := by
  decide

/-- C4 counterexample: in the VLAN check, for expected name `"Printers"`
against measured name `"VideoSystems"` (all other compared fields equal),
the outcome's overall status is `PASS`, not `WARN`, and the `name` field's
recorded status is `PASS`, not `WARN`. -/
theorem exos_c4_counterexample :
    (checkOneVlan false [] (fun _ => []) []
      { name := "Printers", oper_up := true, interfaces := ["1"] }
      { name := "VideoSystems", active_ports := 1 } ["1"]).status =
      CheckStatus.pass ∧
    lookupA (checkOneVlan false [] (fun _ => []) []
      { name := "Printers", oper_up := true, interfaces := ["1"] }
      { name := "VideoSystems", active_ports := 1 } ["1"]).fieldLogs "name" =
      some CheckStatus.pass := by
  decide

/-- C4 [corrected/amended]: a VLAN name mismatch (with a non-empty expected
name) is recorded as a `WARN` log entry, but the override returns `PASS`
for the `name` field, so with all other fields equal the outcome's overall
status is `PASS`. -/
theorem exos_c4_name_mismatch_warn_is_log_only :
    (checkOneVlan false [] (fun _ => []) []
      { name := "Printers", oper_up := true, interfaces := ["1"] }
      { name := "VideoSystems", active_ports := 1 } ["1"]).status =
      CheckStatus.pass ∧
    ({ status := .warn, field := "name" } : LogEntry) ∈
      (checkOneVlan false [] (fun _ => []) []
        { name := "Printers", oper_up := true, interfaces := ["1"] }
        { name := "VideoSystems", active_ports := 1 } ["1"]).logs := by
  decide

/-- C5 counterexample: expected set `{lag1}` where `lag1` has design members
`{e1, e2}` and the device load-share map reports `e1` as the master of
group `{e1, e2}`; against the measured membership `{e1, e2}` the exclusive
reconciliation reports `extra = {e2}` — not the empty extra set the claim
states (only the master survives the expected-set adjustment). -/
theorem exos_c5_counterexample :
    missingInterfaces
      (adjustExpdIfs [("lag1", { is_virtual := false, is_lag := true })]
        (fun s => if s = "lag1" then ["e1", "e2"] else [])
        [("e1", ({"e1", "e2"} : Finset String))] {"lag1"})
      ({"e1", "e2"} : Finset String) = ∅ ∧
    extraInterfaces
      (adjustExpdIfs [("lag1", { is_virtual := false, is_lag := true })]
        (fun s => if s = "lag1" then ["e1", "e2"] else [])
        [("e1", ({"e1", "e2"} : Finset String))] {"lag1"})
      ({"e1", "e2"} : Finset String) = {"e2"} ∧
    ({"e2"} : Finset String) ≠ ∅ ∧
    ({ status := .fail, field := "interfaces", note := "extra",
       ports := ({"e2"} : Finset String) } : LogEntry) ∈
      (checkOneVlan true [("lag1", { is_virtual := false, is_lag := true })]
        (fun s => if s = "lag1" then ["e1", "e2"] else [])
        [("e1", ({"e1", "e2"} : Finset String))]
        { name := "v10", oper_up := true, interfaces := ["lag1"] }
        { name := "v10", active_ports := 1 } ["e1", "e2"]).logs := by
  decide

/-- C5 [corrected/amended]: with the same design and load-share data, the
expected set `{lag1}` is adjusted to `{e1}` (the load-share master); the
exclusive reconciliation reports empty missing and empty extra sets against
the measured membership `{e1}` — which is how the device reports LAG
membership — while against `{e1, e2}` it reports `extra = {e2}`. -/
theorem exos_c5_lag_expansion_adjusted :
    adjustExpdIfs [("lag1", { is_virtual := false, is_lag := true })]
      (fun s => if s = "lag1" then ["e1", "e2"] else [])
      [("e1", ({"e1", "e2"} : Finset String))] {"lag1"} =
      ({"e1"} : Finset String) ∧
    missingInterfaces
      (adjustExpdIfs [("lag1", { is_virtual := false, is_lag := true })]
        (fun s => if s = "lag1" then ["e1", "e2"] else [])
        [("e1", ({"e1", "e2"} : Finset String))] {"lag1"})
      ({"e1"} : Finset String) = ∅ ∧
    extraInterfaces
      (adjustExpdIfs [("lag1", { is_virtual := false, is_lag := true })]
        (fun s => if s = "lag1" then ["e1", "e2"] else [])
        [("e1", ({"e1", "e2"} : Finset String))] {"lag1"})
      ({"e1"} : Finset String) = ∅ ∧
    exclusiveIfLogs true
      (adjustExpdIfs [("lag1", { is_virtual := false, is_lag := true })]
        (fun s => if s = "lag1" then ["e1", "e2"] else [])
        [("e1", ({"e1", "e2"} : Finset String))] {"lag1"})
      ({"e1"} : Finset String) = [] := by
  decide

/-- The non-reserved path of `_check_one_interface` as one equation. -/
theorem checkOneInterface_normal (flags : IfFlags) (expd m : InterfaceFields)
    (hres : flags.is_reserved = false) :
    checkOneInterface flags expd (some m) =
      [measure none true
        (ifaceFields
          (if flags.is_forced_unused then { expd with used := false } else expd)
          m)
        (ifaceOnMismatch flags.is_forced_unused m) []] := by
  simp [checkOneInterface, hres]

/-- An override that never logs contributes no log entries to the measured
fields. -/
theorem measureFields_snd_nil (fields : List (String × Bool))
    (onM : String → Option CheckStatus × List LogEntry)
    (h : ∀ f, (onM f).2 = []) : (measureFields fields onM).2 = [] := by
  unfold measureFields
  refine List.flatten_eq_nil_iff.mpr ?_
  intro x hx
  rcases List.mem_map.mp hx with ⟨fb, _, rfl⟩
  exact h fb.1

/-- C6 [confirmed]: for a non-reserved interface expectation carrying the
forced-unused flag, the expected `used` value is forced to `false` (the
`used` field compares the measurement against `false`), and a description
mismatch yields status `FAIL` for the `desc` field instead of the usual
`WARN`. -/
theorem exos_c6_forced_unused_desc_fail (flags : IfFlags)
    (expd m : InterfaceFields) (hres : flags.is_reserved = false)
    (hfu : flags.is_forced_unused = true) (hdesc : expd.desc ≠ m.desc) :
    ∃ o : Outcome, checkOneInterface flags expd (some m) = [o] ∧
      lookupA o.fieldLogs "desc" = some CheckStatus.fail ∧
      lookupA o.fieldLogs "used" =
        some (if m.used = false then CheckStatus.pass else CheckStatus.fail) := by
  have hbd : (expd.desc == m.desc) = false := beq_eq_false_iff_ne.mpr hdesc
  refine ⟨_, checkOneInterface_normal flags expd m hres, ?_, ?_⟩
  · simp [measure, measureFields, ifaceFields, ifaceOnMismatch, lookupA,
      hbd, hfu]
  · cases hmu : m.used <;>
      simp [measure, measureFields, ifaceFields, ifaceOnMismatch, lookupA,
        hbd, hfu, hmu]

/-- C6 witness: a forced-unused interface with a mismatched description. -/
theorem exos_c6_forced_unused_desc_fail_witness :
    ({ is_reserved := false, is_forced_unused := true } : IfFlags).is_reserved
      = false ∧
    ({ is_reserved := false, is_forced_unused := true } : IfFlags).is_forced_unused
      = true ∧
    ({ used := true, oper_up := true, desc := "uplink", speed := 1000 }
      : InterfaceFields).desc ≠
      ({ used := true, oper_up := true, desc := "", speed := 1000 }
        : InterfaceFields).desc ∧
    ∃ o : Outcome,
      checkOneInterface { is_reserved := false, is_forced_unused := true }
        { used := true, oper_up := true, desc := "uplink", speed := 1000 }
        (some { used := true, oper_up := true, desc := "", speed := 1000 }) =
        [o] ∧
      lookupA o.fieldLogs "desc" = some CheckStatus.fail ∧
      lookupA o.fieldLogs "used" =
        some (if ({ used := true, oper_up := true, desc := "", speed := 1000 }
          : InterfaceFields).used = false then CheckStatus.pass
          else CheckStatus.fail) :=
  ⟨rfl, rfl, by decide,
   exos_c6_forced_unused_desc_fail
     { is_reserved := false, is_forced_unused := true }
     { used := true, oper_up := true, desc := "uplink", speed := 1000 }
     { used := true, oper_up := true, desc := "", speed := 1000 }
     rfl rfl (by decide)⟩

/-- C7 [confirmed]: for a non-reserved interface whose measured `oper_up` is
false, a mismatch on the `speed` field yields status `SKIP` (not `FAIL`),
and the speed mismatch never makes the outcome fail: if the overall status
is `FAIL`, some other field (`used`, `oper_up` or `desc`) produced the
`FAIL`. -/
theorem exos_c7_speed_skip_when_down (flags : IfFlags)
    (expd m : InterfaceFields) (hres : flags.is_reserved = false)
    (hdown : m.oper_up = false) (hspeed : expd.speed ≠ m.speed) :
    ∃ o : Outcome, checkOneInterface flags expd (some m) = [o] ∧
      lookupA o.fieldLogs "speed" = some CheckStatus.skip ∧
      (o.status = CheckStatus.fail →
        lookupA o.fieldLogs "used" = some CheckStatus.fail ∨
        lookupA o.fieldLogs "oper_up" = some CheckStatus.fail ∨
        lookupA o.fieldLogs "desc" = some CheckStatus.fail) := by
  have hbs : (expd.speed == m.speed) = false := beq_eq_false_iff_ne.mpr hspeed
  refine ⟨_, checkOneInterface_normal flags expd m hres, ?_, ?_⟩
  · cases hfu : flags.is_forced_unused <;>
      simp [measure, measureFields, ifaceFields, ifaceOnMismatch, lookupA,
        hbs, hdown, hfu]
  · cases hfu : flags.is_forced_unused <;>
      cases hmu : m.used <;>
      cases heu : expd.used <;>
      cases heo : expd.oper_up <;>
      cases hbd : (expd.desc == m.desc) <;>
      simp [measure, measureFields, ifaceFields, ifaceOnMismatch, lookupA,
        maxStatus, CheckStatus.sev, hbs, hdown, hfu, hmu, heu, heo, hbd]

/-- C7 witness: a down interface with a speed mismatch; the `speed` field is
`SKIP` and the outcome does not fail on the speed alone. -/
theorem exos_c7_speed_skip_when_down_witness :
    ({ is_reserved := false, is_forced_unused := false } : IfFlags).is_reserved
      = false ∧
    ({ used := true, oper_up := false, desc := "", speed := 0 }
      : InterfaceFields).oper_up = false ∧
    ({ used := true, oper_up := true, desc := "", speed := 1000 }
      : InterfaceFields).speed ≠
      ({ used := true, oper_up := false, desc := "", speed := 0 }
        : InterfaceFields).speed ∧
    ∃ o : Outcome,
      checkOneInterface { is_reserved := false, is_forced_unused := false }
        { used := true, oper_up := true, desc := "", speed := 1000 }
        (some { used := true, oper_up := false, desc := "", speed := 0 }) =
        [o] ∧
      lookupA o.fieldLogs "speed" = some CheckStatus.skip ∧
      (o.status = CheckStatus.fail →
        lookupA o.fieldLogs "used" = some CheckStatus.fail ∨
        lookupA o.fieldLogs "oper_up" = some CheckStatus.fail ∨
        lookupA o.fieldLogs "desc" = some CheckStatus.fail) :=
  ⟨rfl, rfl, by decide,
   exos_c7_speed_skip_when_down
     { is_reserved := false, is_forced_unused := false }
     { used := true, oper_up := true, desc := "", speed := 1000 }
     { used := true, oper_up := false, desc := "", speed := 0 }
     rfl rfl (by decide)⟩

/-- C8 [confirmed]: in exclusive membership reconciliation the missing set
is expected minus measured and the extra set is measured minus expected;
each non-empty set is reported independently as a `FAIL` log entry; and in
the scenario expected `{p1, p2, p3}` versus measured `{p1, p2, p4}` the VLAN
check reports `missing = {p3}`, `extra = {p4}` and an overall `FAIL`. -/
theorem exos_c8_exclusive_set_diff (e ms : Finset String) :
    missingInterfaces e ms = e \ ms ∧
    extraInterfaces e ms = ms \ e ∧
    (({ status := .fail, field := "interfaces", note := "missing",
        ports := missingInterfaces e ms } : LogEntry) ∈
        exclusiveIfLogs true e ms ↔ missingInterfaces e ms ≠ ∅) ∧
    (({ status := .fail, field := "interfaces", note := "extra",
        ports := extraInterfaces e ms } : LogEntry) ∈
        exclusiveIfLogs true e ms ↔ extraInterfaces e ms ≠ ∅) ∧
    (checkOneVlan true [] (fun _ => []) []
      { name := "v", oper_up := true, interfaces := ["p1", "p2", "p3"] }
      { name := "v", active_ports := 1 } ["p1", "p2", "p4"]).status =
      CheckStatus.fail ∧
    ({ status := .fail, field := "interfaces", note := "missing",
       ports := ({"p3"} : Finset String) } : LogEntry) ∈
      (checkOneVlan true [] (fun _ => []) []
        { name := "v", oper_up := true, interfaces := ["p1", "p2", "p3"] }
        { name := "v", active_ports := 1 } ["p1", "p2", "p4"]).logs ∧
    ({ status := .fail, field := "interfaces", note := "extra",
       ports := ({"p4"} : Finset String) } : LogEntry) ∈
      (checkOneVlan true [] (fun _ => []) []
        { name := "v", oper_up := true, interfaces := ["p1", "p2", "p3"] }
        { name := "v", active_ports := 1 } ["p1", "p2", "p4"]).logs := by
  refine ⟨rfl, rfl, ?_, ?_, by decide, by decide, by decide⟩
  · by_cases hm : missingInterfaces e ms = ∅ <;>
      by_cases hx : extraInterfaces e ms = ∅ <;>
      simp [exclusiveIfLogs, hm, hx]
  · by_cases hm : missingInterfaces e ms = ∅ <;>
      by_cases hx : extraInterfaces e ms = ∅ <;>
      simp [exclusiveIfLogs, hm, hx]

/-- C9 [confirmed]: a VLAN SVI that is enabled in the design but measured
down is downgraded: when every constituent physical port of the VLAN is
either disabled in the design or flagged reserved, the executor emits one
outcome whose `oper_up` field status is `PASS`, whose overall status is
`PASS` (with the expected address matching), and which carries an `INFO`
log listing those ports. -/
theorem exos_c9_svi_down_suppressed (vlanPorts : List (String × Bool))
    (dutIfs : String → IpIfDesign) (expd : IpExpected) (msrdData : IpRec)
    (plen : Nat) (hnr : expd.if_ipaddr ≠ "is_reserved")
    (hpl : msrdData.prefixLen = some plen)
    (hU : msrdData.flags.contains 'U' = false)
    (hall : ∀ p ∈ vlanPorts, (dutIfs p.1).enabled = false ∨
      (dutIfs p.1).has_is_reserved = true)
    (hip : expd.if_ipaddr = msrdData.ipAddress ++ "/" ++ toString plen) :
    ∃ o : Outcome,
      checkOneIpInterface true true vlanPorts dutIfs expd msrdData = [o] ∧
      o.status = CheckStatus.pass ∧
      lookupA o.fieldLogs "oper_up" = some CheckStatus.pass ∧
      o.logs = [{ status := .info, field := "oper_up",
                  note := "interfaces are either disabled or in reserved state",
                  ports := (vlanPorts.map (fun p => p.1)).toFinset }] := by
  have hU' : ¬ ('U' ∈ msrdData.flags) := by simpa using hU
  have hfilterF : Finset.filter
      (fun x => (dutIfs x).enabled = false ∨ (dutIfs x).has_is_reserved = true)
      (vlanPorts.map (fun p => p.1)).toFinset =
      (vlanPorts.map (fun p => p.1)).toFinset := by
    refine Finset.filter_eq_self.mpr ?_
    intro x hx
    rcases List.mem_map.mp (List.mem_toFinset.mp hx) with ⟨p, hp, rfl⟩
    exact hall p hp
  have hbeq : (expd.if_ipaddr ==
      msrdData.ipAddress ++ "/" ++ toString plen) = true := by
    simp [hip]
  have hstep : checkOneIpInterface true true vlanPorts dutIfs expd msrdData =
      [measure none true
        (ipFields expd (msrdData.ipAddress ++ "/" ++ toString plen) false)
        (fun f => ipAssocOnMismatch f)
        [{ status := .info, field := "oper_up",
            note := "interfaces are either disabled or in reserved state",
            ports := (vlanPorts.map (fun p => p.1)).toFinset }]] := by
    simp only [checkOneIpInterface, hpl]
    simp [hnr, hU', checkVlanAssocIface, hfilterF]
  refine ⟨_, hstep, ?_, ?_, ?_⟩
  · cases heo : expd.oper_up <;>
      simp [measure, measureFields, ipFields, ipAssocOnMismatch, maxStatus,
        CheckStatus.sev, hbeq, heo]
  · cases heo : expd.oper_up <;>
      simp [measure, measureFields, ipFields, ipAssocOnMismatch, lookupA,
        hbeq, heo]
  · cases heo : expd.oper_up <;>
      simp [measure, measureFields, ipFields, ipAssocOnMismatch, hbeq, heo]

/-- C9 witness: a concrete down SVI on VLAN ports that are all disabled in
the design. -/
theorem exos_c9_svi_down_suppressed_witness :
    (({ if_ipaddr := "10.0.0.1/24", oper_up := true } : IpExpected).if_ipaddr
      ≠ "is_reserved") ∧
    (({ ipAddress := "10.0.0.1", prefixLen := some 24, flags := ['R'] }
      : IpRec).prefixLen = some 24) ∧
    (({ ipAddress := "10.0.0.1", prefixLen := some 24, flags := ['R'] }
      : IpRec).flags.contains 'U' = false) ∧
    (∀ p ∈ [("1", false), ("2", false)],
      ((fun _ : String =>
        ({ enabled := false, has_is_reserved := false } : IpIfDesign)) p.1).enabled
        = false ∨
      ((fun _ : String =>
        ({ enabled := false, has_is_reserved := false } : IpIfDesign)) p.1).has_is_reserved
        = true) ∧
    (({ if_ipaddr := "10.0.0.1/24", oper_up := true } : IpExpected).if_ipaddr =
      ({ ipAddress := "10.0.0.1", prefixLen := some 24, flags := ['R'] }
        : IpRec).ipAddress ++ "/" ++ toString 24) ∧
    ∃ o : Outcome,
      checkOneIpInterface true true [("1", false), ("2", false)]
        (fun _ : String => { enabled := false, has_is_reserved := false })
        { if_ipaddr := "10.0.0.1/24", oper_up := true }
        { ipAddress := "10.0.0.1", prefixLen := some 24, flags := ['R'] } =
        [o] ∧
      o.status = CheckStatus.pass ∧
      lookupA o.fieldLogs "oper_up" = some CheckStatus.pass ∧
      o.logs = [{ status := .info, field := "oper_up",
                  note := "interfaces are either disabled or in reserved state",
                  ports := (([("1", false), ("2", false)] :
                    List (String × Bool)).map (fun p => p.1)).toFinset }] :=
  ⟨by decide, rfl, by decide, by decide, by decide,
   exos_c9_svi_down_suppressed [("1", false), ("2", false)]
     (fun _ : String => { enabled := false, has_is_reserved := false })
     { if_ipaddr := "10.0.0.1/24", oper_up := true }
     { ipAddress := "10.0.0.1", prefixLen := some 24, flags := ['R'] }
     24 (by decide) rfl (by decide) (by decide) (by decide)⟩

/-- C10 [confirmed]: in the non-exclusive VLAN check, the
interfaces-membership field is `PASS` whenever the adjusted expected
interface set is a subset of the measured set — extra measured members
never fail a non-exclusive membership check. -/
theorem exos_c10_nonexclusive_subset_pass
    (deviceIfs : List (String × ProfileFlags))
    (lagMembers : String → List String)
    (lsPortMap : List (String × Finset String))
    (expd : VlanFields) (vstat : VlanStatus) (ports : List String)
    (h : adjustExpdIfs deviceIfs lagMembers lsPortMap
      expd.interfaces.toFinset ⊆ ports.toFinset) :
    lookupA (checkOneVlan false deviceIfs lagMembers lsPortMap expd vstat
      ports).fieldLogs "interfaces" = some CheckStatus.pass := by
  have hint : ports.toFinset ∩
      adjustExpdIfs deviceIfs lagMembers lsPortMap expd.interfaces.toFinset =
      adjustExpdIfs deviceIfs lagMembers lsPortMap expd.interfaces.toFinset :=
    Finset.inter_eq_right.mpr h
  cases hb : (expd.interfaces == ports) <;>
    simp [checkOneVlan, measure, measureFields, vlanFieldsCmp, lookupA, hb,
      vlanOnMismatch, hint]

/-- C10 witness: expected member set `{p1}` inside measured `{p1, p2}`
passes the non-exclusive membership field. -/
theorem exos_c10_nonexclusive_subset_pass_witness :
    (adjustExpdIfs [] (fun _ => []) []
      (({ name := "v", oper_up := true, interfaces := ["p1"] }
        : VlanFields).interfaces).toFinset ⊆
      (["p1", "p2"] : List String).toFinset) ∧
    lookupA (checkOneVlan false [] (fun _ => []) []
      { name := "v", oper_up := true, interfaces := ["p1"] }
      { name := "v", active_ports := 1 } ["p1", "p2"]).fieldLogs
      "interfaces" = some CheckStatus.pass :=
  ⟨by decide,
   exos_c10_nonexclusive_subset_pass [] (fun _ => []) []
     { name := "v", oper_up := true, interfaces := ["p1"] }
     { name := "v", active_ports := 1 } ["p1", "p2"] (by decide)⟩

end NetcamAioexos
